import Mathlib

/-!
Verification of the poc-ses email service (Go) against its specification.

The Go source is shallowly embedded: `time.Time` values become `Int` epoch
seconds, Go `int`/`int64` become `Int`, `float64` rate arithmetic becomes `ℚ`
(the division-by-zero guards of the source are what is modelled, not IEEE
rounding), the process-wide `map[string]DeliveryStatus` cache becomes an
association list with Go-map semantics (unique keys, overwrite on insert),
and `sort.Slice` becomes `List.insertionSort` with the same comparator (any
correct sort realises `sort.Slice`; ties are broken arbitrarily in the source).
External collaborators (the SES client, CloudWatch, gomail, encoding/json)
are passed in as explicit function-valued parameters, and `time.Now()` is an
explicit `now` argument.
-/

/-- Association-list lookup, modelling Go map indexing `m[k]`. -/
def alistLookup {κ ν : Type} [DecidableEq κ] : List (κ × ν) → κ → Option ν
  | [], _ => none
  | (k', v) :: rest, k => if k' = k then some v else alistLookup rest k

/-- Association-list overwrite, modelling Go map assignment `m[k] = v`. -/
def alistInsert {κ ν : Type} [DecidableEq κ] : List (κ × ν) → κ → ν → List (κ × ν)
  | [], k, v => [(k, v)]
  | (k', v') :: rest, k, v =>
    if k' = k then (k', v) :: rest else (k', v') :: alistInsert rest k v

/-- Association-list in-place update with a default for absent keys, modelling
the Go pattern `if _, ok := m[k]; !ok { m[k] = zero }; m[k] = f(m[k])`. -/
def alistBump {κ ν : Type} [DecidableEq κ] (dflt : ν) :
    List (κ × ν) → κ → (ν → ν) → List (κ × ν)
  | [], k, f => [(k, f dflt)]
  | (k', v') :: rest, k, f =>
    if k' = k then (k', f v') :: rest else (k', v') :: alistBump dflt rest k f

theorem alistLookup_insert_self {κ ν : Type} [DecidableEq κ]
    (l : List (κ × ν)) (k : κ) (v : ν) :
    alistLookup (alistInsert l k v) k = some v := by
  induction l with
  | nil => simp [alistInsert, alistLookup]
  | cons p rest ih =>
    obtain ⟨k', v'⟩ := p
    by_cases h : k' = k
    · simp [alistInsert, alistLookup, h]
    · simp [alistInsert, alistLookup, h, ih]

theorem alistLookup_insert_ne {κ ν : Type} [DecidableEq κ]
    (l : List (κ × ν)) (k k₀ : κ) (v : ν) (h : k₀ ≠ k) :
    alistLookup (alistInsert l k v) k₀ = alistLookup l k₀ := by
  induction l with
  | nil => simp [alistInsert, alistLookup, Ne.symm h]
  | cons p rest ih =>
    obtain ⟨k', v'⟩ := p
    by_cases hk : k' = k
    · subst hk
      simp [alistInsert, alistLookup, Ne.symm h]
    · by_cases hk0 : k' = k₀
      · simp [alistInsert, alistLookup, hk, hk0, h]
      · simp [alistInsert, alistLookup, hk, hk0, ih]

theorem alistKeys_insert {κ ν : Type} [DecidableEq κ]
    (l : List (κ × ν)) (k : κ) (v : ν) :
    (alistInsert l k v).map Prod.fst =
      if k ∈ l.map Prod.fst then l.map Prod.fst else l.map Prod.fst ++ [k] := by
  induction l with
  | nil => simp [alistInsert]
  | cons p rest ih =>
    obtain ⟨k', v'⟩ := p
    by_cases h : k' = k
    · simp [alistInsert, h]
    · simp only [alistInsert, if_neg h, List.map_cons, List.mem_cons]
      rw [ih]
      by_cases hm : k ∈ rest.map Prod.fst
      · simp [hm]
      · simp [hm, Ne.symm h]

theorem alistLookup_bump_self {κ ν : Type} [DecidableEq κ]
    (dflt : ν) (l : List (κ × ν)) (k : κ) (f : ν → ν) :
    alistLookup (alistBump dflt l k f) k = some (f ((alistLookup l k).getD dflt)) := by
  induction l with
  | nil => simp [alistBump, alistLookup]
  | cons p rest ih =>
    obtain ⟨k', v'⟩ := p
    by_cases h : k' = k
    · simp [alistBump, alistLookup, h]
    · simp [alistBump, alistLookup, h, ih]

theorem alistLookup_bump_ne {κ ν : Type} [DecidableEq κ]
    (dflt : ν) (l : List (κ × ν)) (k k₀ : κ) (f : ν → ν) (h : k₀ ≠ k) :
    alistLookup (alistBump dflt l k f) k₀ = alistLookup l k₀ := by
  induction l with
  | nil => simp [alistBump, alistLookup, Ne.symm h]
  | cons p rest ih =>
    obtain ⟨k', v'⟩ := p
    by_cases hk : k' = k
    · subst hk
      simp [alistBump, alistLookup, Ne.symm h]
    · by_cases hk0 : k' = k₀
      · simp [alistBump, alistLookup, hk, hk0, h]
      · simp [alistBump, alistLookup, hk, hk0, ih]

theorem alistKeys_bump {κ ν : Type} [DecidableEq κ]
    (dflt : ν) (l : List (κ × ν)) (k : κ) (f : ν → ν) :
    (alistBump dflt l k f).map Prod.fst =
      if k ∈ l.map Prod.fst then l.map Prod.fst else l.map Prod.fst ++ [k] := by
  induction l with
  | nil => simp [alistBump]
  | cons p rest ih =>
    obtain ⟨k', v'⟩ := p
    by_cases h : k' = k
    · simp [alistBump, h]
    · simp only [alistBump, if_neg h, List.map_cons, List.mem_cons]
      rw [ih]
      by_cases hm : k ∈ rest.map Prod.fst
      · simp [hm]
      · simp [hm, Ne.symm h]

/-- `services.DeliveryStatus` (delivery record of one tracked message).
Timestamps are epoch seconds; Go's zero `time.Time` is modelled as `0`. -/
structure DeliveryStatus where
  ID : String
  FromEmail : String
  MessageID : String
  Status : String
  StatusDescription : String
  SentAt : Int
  DeliveredAt : Int
  OpenedAt : Int
  ClickCount : Int
  LastClickAt : Int
  Subject : String
deriving Repr, DecidableEq

/-- The `statuses` map of `services.StatusCache`, as an association list with
Go-map semantics (the mutex is irrelevant in this sequential embedding). -/
abbrev Cache := List (String × DeliveryStatus)

/-- The record built by `DeliveryService.TrackDelivery` before it is stored. -/
def trackedRecord (email messageId subject : String) (now : Int) : DeliveryStatus :=
  { ID := messageId ++ "-" ++ toString now
    FromEmail := email
    MessageID := messageId
    Status := "SENT"
    StatusDescription := "E-mail enviado e aguardando processamento"
    SentAt := now
    DeliveredAt := 0
    OpenedAt := 0
    ClickCount := 0
    LastClickAt := 0
    Subject := subject }

/-- `DeliveryService.TrackDelivery`: build a fresh SENT record and store it
under `messageId`, overwriting any previous entry. -/
def TrackDelivery (cache : Cache) (email messageId subject : String) (now : Int) : Cache :=
  alistInsert cache messageId (trackedRecord email messageId subject now)

/-- `DeliveryService.UpdateDeliveryStatus`: state-passing translation. The
returned cache is the post-state; the `Option String` is the Go `error`
(`some msg` on failure, `none` on success). -/
def UpdateDeliveryStatus (cache : Cache) (messageId status description : String)
    (now : Int) : Cache × Option String :=
  match alistLookup cache messageId with
  | none => (cache, some ("mensagem não encontrada: " ++ messageId))
  | some current =>
    let current := { current with Status := status, StatusDescription := description }
    let current :=
      if status = "DELIVERED" then { current with DeliveredAt := now }
      else if status = "OPENED" then { current with OpenedAt := now }
      else if status = "CLICKED" then
        { current with ClickCount := current.ClickCount + 1, LastClickAt := now }
      else current
    (alistInsert cache messageId current, none)

/-- `DeliveryService.GetDeliveryStatus`: point lookup returning a copy of the
record, or the not-found error. -/
def GetDeliveryStatus (cache : Cache) (messageId : String) :
    Except String DeliveryStatus :=
  match alistLookup cache messageId with
  | none => .error ("mensagem não encontrada: " ++ messageId)
  | some status => .ok status

/-- Comparator of `DeliveryService.GetAllDeliveryStatus`:
`result[i].SentAt.After(result[j].SentAt)` as a total preorder
(most recent first). -/
def sentAtDesc (a b : DeliveryStatus) : Prop := b.SentAt ≤ a.SentAt

instance : DecidableRel sentAtDesc := fun a b =>
  inferInstanceAs (Decidable (b.SentAt ≤ a.SentAt))

instance : IsTotal DeliveryStatus sentAtDesc :=
  ⟨fun a b => (Int.le_total b.SentAt a.SentAt).imp id id⟩

instance : IsTrans DeliveryStatus sentAtDesc :=
  ⟨fun _ _ _ hab hbc => Int.le_trans hbc hab⟩

/-- `DeliveryService.GetAllDeliveryStatus`: all records, sorted by send
timestamp descending (`sort.Slice` modelled by insertion sort). -/
def GetAllDeliveryStatus (cache : Cache) : List DeliveryStatus :=
  List.insertionSort sentAtDesc (cache.map Prod.snd)

theorem UpdateDeliveryStatus_clicked_eq (cache : Cache) (mid desc : String) (now : Int)
    (r : DeliveryStatus) (h : alistLookup cache mid = some r) :
    UpdateDeliveryStatus cache mid "CLICKED" desc now =
      (alistInsert cache mid
        { r with Status := "CLICKED", StatusDescription := desc,
                 ClickCount := r.ClickCount + 1, LastClickAt := now }, none) := by
  simp [UpdateDeliveryStatus, h]

theorem UpdateDeliveryStatus_other_eq (cache : Cache) (mid st desc : String) (now : Int)
    (r : DeliveryStatus) (h : alistLookup cache mid = some r)
    (h1 : st ≠ "DELIVERED") (h2 : st ≠ "OPENED") (h3 : st ≠ "CLICKED") :
    UpdateDeliveryStatus cache mid st desc now =
      (alistInsert cache mid
        { r with Status := st, StatusDescription := desc }, none) := by
  simp [UpdateDeliveryStatus, h, h1, h2, h3]

theorem alistLookup_track_self (cache : Cache) (email mid subj : String) (now : Int) :
    alistLookup (TrackDelivery cache email mid subj now) mid =
      some (trackedRecord email mid subj now) :=
  alistLookup_insert_self ..

theorem lookup_after_clicked (cache : Cache) (mid d : String) (now : Int)
    (r : DeliveryStatus) (h : alistLookup cache mid = some r) :
    alistLookup (UpdateDeliveryStatus cache mid "CLICKED" d now).1 mid =
      some { r with
             Status := "CLICKED", StatusDescription := d,
             ClickCount := r.ClickCount + 1, LastClickAt := now } := by
  rw [UpdateDeliveryStatus_clicked_eq cache mid d now r h]
  exact alistLookup_insert_self ..

/-- C3: each `UpdateDeliveryStatus` call with status CLICKED on a cached record
increments its click counter by exactly 1 and sets `LastClickAt` to that call's
timestamp; consequently three sequential CLICKED updates on a freshly tracked
record (click counter 0) yield click count 3 with `LastClickAt` equal to the
third call's timestamp. -/
theorem clicked_increments_and_triple_clicked_counts_three :
    (∀ (cache : Cache) (mid desc : String) (now : Int) (r : DeliveryStatus),
      alistLookup cache mid = some r →
      ∃ cache', UpdateDeliveryStatus cache mid "CLICKED" desc now = (cache', none) ∧
        ∃ r', alistLookup cache' mid = some r' ∧
          r'.ClickCount = r.ClickCount + 1 ∧ r'.LastClickAt = now) ∧
    (∀ (cache : Cache) (email mid subj d1 d2 d3 : String) (t0 t1 t2 t3 : Int),
      ∃ r, alistLookup
          (UpdateDeliveryStatus
            (UpdateDeliveryStatus
              (UpdateDeliveryStatus (TrackDelivery cache email mid subj t0)
                mid "CLICKED" d1 t1).1
              mid "CLICKED" d2 t2).1
            mid "CLICKED" d3 t3).1 mid = some r ∧
        r.ClickCount = 3 ∧ r.LastClickAt = t3) := by
  constructor
  · intro cache mid desc now r h
    exact ⟨_, UpdateDeliveryStatus_clicked_eq cache mid desc now r h,
      _, alistLookup_insert_self .., rfl, rfl⟩
  · intro cache email mid subj d1 d2 d3 t0 t1 t2 t3
    have h0 := alistLookup_track_self cache email mid subj t0
    have h1 := lookup_after_clicked _ mid d1 t1 _ h0
    have h2 := lookup_after_clicked _ mid d2 t2 _ h1
    have h3 := lookup_after_clicked _ mid d3 t3 _ h2
    exact ⟨_, h3, by simp [trackedRecord], rfl⟩

/-- Witness for C3: one CLICKED update on a concrete singleton cache increments
the click counter from 0 to 1 and stamps the call's timestamp. -/
theorem clicked_increments_witness :
    ∃ cache', UpdateDeliveryStatus [("m1", trackedRecord "a@x.com" "m1" "hi" 10)]
        "m1" "CLICKED" "clicked" 11 = (cache', none) ∧
      ∃ r', alistLookup cache' "m1" = some r' ∧
        r'.ClickCount = (trackedRecord "a@x.com" "m1" "hi" 10).ClickCount + 1 ∧
        r'.LastClickAt = 11 :=
  clicked_increments_and_triple_clicked_counts_three.1
    [("m1", trackedRecord "a@x.com" "m1" "hi" 10)] "m1" "clicked" 11
    (trackedRecord "a@x.com" "m1" "hi" 10) (by simp [alistLookup])

/-- C4: `UpdateDeliveryStatus` on a messageId absent from the cache fails with
the not-found error and returns the cache completely unchanged. -/
theorem updateStatus_unknown_id_fails_and_preserves_cache
    (cache : Cache) (mid st desc : String) (now : Int)
    (h : alistLookup cache mid = none) :
    UpdateDeliveryStatus cache mid st desc now =
      (cache, some ("mensagem não encontrada: " ++ mid)) := by
  simp [UpdateDeliveryStatus, h]

/-- Witness for C4: updating an id that is not in a concrete one-record cache
fails and leaves the cache as it was. -/
theorem updateStatus_unknown_id_witness :
    UpdateDeliveryStatus [("m1", trackedRecord "a@x.com" "m1" "hi" 10)]
        "m2" "DELIVERED" "d" 20 =
      ([("m1", trackedRecord "a@x.com" "m1" "hi" 10)],
        some ("mensagem não encontrada: " ++ "m2")) :=
  updateStatus_unknown_id_fails_and_preserves_cache
    [("m1", trackedRecord "a@x.com" "m1" "hi" 10)] "m2" "DELIVERED" "d" 20
    (by simp [alistLookup])

/-- C5: `TrackDelivery` followed immediately by `GetDeliveryStatus` on the same
messageId returns the freshly built record, whose status is SENT and whose
click counter is 0; the insert overwrites any prior record for that messageId
(every other key is untouched and the key set gains `messageId` only if it was
absent — last-write-wins, no append). -/
theorem track_then_get_returns_sent_record
    (cache : Cache) (email mid subj : String) (now : Int) :
    GetDeliveryStatus (TrackDelivery cache email mid subj now) mid =
        .ok (trackedRecord email mid subj now) ∧
    (trackedRecord email mid subj now).Status = "SENT" ∧
    (trackedRecord email mid subj now).ClickCount = 0 ∧
    (∀ k, k ≠ mid →
      alistLookup (TrackDelivery cache email mid subj now) k = alistLookup cache k) ∧
    ((TrackDelivery cache email mid subj now).map Prod.fst =
      if mid ∈ cache.map Prod.fst then cache.map Prod.fst
      else cache.map Prod.fst ++ [mid]) := by
  refine ⟨?_, rfl, rfl, ?_, ?_⟩
  · simp [GetDeliveryStatus, alistLookup_track_self]
  · intro k hk
    exact alistLookup_insert_ne _ _ _ _ hk
  · exact alistKeys_insert ..

/-- Witness for C5: tracking a message over a cache that already holds a record
for the same messageId yields SENT with click count 0, overwriting in place. -/
theorem track_then_get_witness :
    GetDeliveryStatus
        (TrackDelivery [("m1", trackedRecord "old@x.com" "m1" "old" 1)]
          "new@x.com" "m1" "new" 2) "m1" =
      .ok (trackedRecord "new@x.com" "m1" "new" 2) ∧
    alistLookup (TrackDelivery [("m1", trackedRecord "old@x.com" "m1" "old" 1)]
        "new@x.com" "m1" "new" 2) "k0" =
      alistLookup [("m1", trackedRecord "old@x.com" "m1" "old" 1)] "k0" :=
  ⟨(track_then_get_returns_sent_record
      [("m1", trackedRecord "old@x.com" "m1" "old" 1)] "new@x.com" "m1" "new" 2).1,
   (track_then_get_returns_sent_record
      [("m1", trackedRecord "old@x.com" "m1" "old" 1)] "new@x.com" "m1" "new" 2).2.2.2.1
      "k0" (by decide)⟩

/-- C10: `UpdateDeliveryStatus` with any status other than DELIVERED, OPENED
and CLICKED succeeds and changes only the target record's `Status` and
`StatusDescription`; all its other fields and every other cache entry are
unchanged. -/
theorem updateStatus_other_status_frame
    (cache : Cache) (mid st desc : String) (now : Int) (r : DeliveryStatus)
    (h1 : st ≠ "DELIVERED") (h2 : st ≠ "OPENED") (h3 : st ≠ "CLICKED")
    (h : alistLookup cache mid = some r) :
    ∃ cache', UpdateDeliveryStatus cache mid st desc now = (cache', none) ∧
      (∃ r', alistLookup cache' mid = some r' ∧
        r'.Status = st ∧ r'.StatusDescription = desc ∧
        r'.ID = r.ID ∧ r'.FromEmail = r.FromEmail ∧ r'.MessageID = r.MessageID ∧
        r'.SentAt = r.SentAt ∧ r'.DeliveredAt = r.DeliveredAt ∧
        r'.OpenedAt = r.OpenedAt ∧ r'.ClickCount = r.ClickCount ∧
        r'.LastClickAt = r.LastClickAt ∧ r'.Subject = r.Subject) ∧
      (∀ k, k ≠ mid → alistLookup cache' k = alistLookup cache k) := by
  refine ⟨_, UpdateDeliveryStatus_other_eq cache mid st desc now r h h1 h2 h3, ?_, ?_⟩
  · exact ⟨_, alistLookup_insert_self .., rfl, rfl, rfl, rfl, rfl, rfl, rfl, rfl, rfl, rfl, rfl⟩
  · intro k hk
    exact alistLookup_insert_ne _ _ _ _ hk

/-- Witness for C10: a CANCELLED update on a concrete two-record cache succeeds
and leaves everything but the target's status and description unchanged. -/
theorem updateStatus_other_status_witness :
    ∃ cache', UpdateDeliveryStatus
        [("m1", trackedRecord "a@x.com" "m1" "hi" 10),
         ("m2", trackedRecord "b@x.com" "m2" "yo" 20)]
        "m1" "CANCELLED" "cancelado" 30 = (cache', none) ∧
      (∃ r', alistLookup cache' "m1" = some r' ∧
        r'.Status = "CANCELLED" ∧ r'.StatusDescription = "cancelado" ∧
        r'.ID = (trackedRecord "a@x.com" "m1" "hi" 10).ID ∧
        r'.FromEmail = (trackedRecord "a@x.com" "m1" "hi" 10).FromEmail ∧
        r'.MessageID = (trackedRecord "a@x.com" "m1" "hi" 10).MessageID ∧
        r'.SentAt = (trackedRecord "a@x.com" "m1" "hi" 10).SentAt ∧
        r'.DeliveredAt = (trackedRecord "a@x.com" "m1" "hi" 10).DeliveredAt ∧
        r'.OpenedAt = (trackedRecord "a@x.com" "m1" "hi" 10).OpenedAt ∧
        r'.ClickCount = (trackedRecord "a@x.com" "m1" "hi" 10).ClickCount ∧
        r'.LastClickAt = (trackedRecord "a@x.com" "m1" "hi" 10).LastClickAt ∧
        r'.Subject = (trackedRecord "a@x.com" "m1" "hi" 10).Subject) ∧
      (∀ k, k ≠ "m1" → alistLookup cache' k =
        alistLookup [("m1", trackedRecord "a@x.com" "m1" "hi" 10),
                     ("m2", trackedRecord "b@x.com" "m2" "yo" 20)] k) :=
  updateStatus_other_status_frame
    [("m1", trackedRecord "a@x.com" "m1" "hi" 10),
     ("m2", trackedRecord "b@x.com" "m2" "yo" 20)]
    "m1" "CANCELLED" "cancelado" 30 (trackedRecord "a@x.com" "m1" "hi" 10)
    (by decide) (by decide) (by decide) (by simp [alistLookup])

/-- C9: `GetAllDeliveryStatus` returns every stored record exactly once (it is
a permutation of the cache's values), sorted by send timestamp descending; in
particular three insertions with send timestamps T1 < T2 < T3 come back in
order [T3, T2, T1]. -/
theorem listAll_perm_sorted_desc :
    (∀ cache : Cache, (GetAllDeliveryStatus cache).Perm (cache.map Prod.snd)) ∧
    (∀ cache : Cache, List.Sorted sentAtDesc (GetAllDeliveryStatus cache)) ∧
    (∀ (e1 e2 e3 m1 m2 m3 s1 s2 s3 : String) (t1 t2 t3 : Int),
      t1 < t2 → t2 < t3 → m1 ≠ m2 → m1 ≠ m3 → m2 ≠ m3 →
      GetAllDeliveryStatus
          (TrackDelivery (TrackDelivery (TrackDelivery [] e1 m1 s1 t1)
            e2 m2 s2 t2) e3 m3 s3 t3) =
        [trackedRecord e3 m3 s3 t3, trackedRecord e2 m2 s2 t2,
         trackedRecord e1 m1 s1 t1]) := by
  refine ⟨fun cache => List.perm_insertionSort sentAtDesc (cache.map Prod.snd),
    fun cache => List.sorted_insertionSort sentAtDesc (cache.map Prod.snd), ?_⟩
  intro e1 e2 e3 m1 m2 m3 s1 s2 s3 t1 t2 t3 h12 h23 hm12 hm13 hm23
  have n12 : ¬ (t2 ≤ t1) := not_le.mpr h12
  have n23 : ¬ (t3 ≤ t2) := not_le.mpr h23
  have n13 : ¬ (t3 ≤ t1) := not_le.mpr (h12.trans h23)
  simp [GetAllDeliveryStatus, TrackDelivery, alistInsert, hm12, hm13, hm23,
    List.insertionSort, List.orderedInsert, sentAtDesc, trackedRecord,
    n12, n23, n13]

/-- Witness for C9: three concrete insertions with timestamps 1 < 2 < 3 are
listed most recent first. -/
theorem listAll_triple_witness :
    GetAllDeliveryStatus
        (TrackDelivery (TrackDelivery (TrackDelivery [] "a@x.com" "m1" "s1" 1)
          "b@x.com" "m2" "s2" 2) "c@x.com" "m3" "s3" 3) =
      [trackedRecord "c@x.com" "m3" "s3" 3, trackedRecord "b@x.com" "m2" "s2" 2,
       trackedRecord "a@x.com" "m1" "s1" 1] :=
  listAll_perm_sorted_desc.2.2 "a@x.com" "b@x.com" "c@x.com" "m1" "m2" "m3"
    "s1" "s2" "s3" 1 2 3 (by decide) (by decide)
    (by decide) (by decide) (by decide)

/-- The derived-rate record of `SESService.GetMetrics` (fields of
`MetricsResponse`); `float64` percentages are modelled in `ℚ`. -/
structure Rates where
  DeliveryRate : ℚ
  OpenRate : ℚ
  ClickRate : ℚ
  BounceRate : ℚ
  ComplaintRate : ℚ
deriving Repr, DecidableEq

/-- Rate computation of `SESService.GetMetrics` (identical guard structure in
`GetSenderMetrics` and `DeliveryService.GetRealTimeReport`): all five rates
start at zero; the sent-based ones are assigned only when `sent > 0`, the
delivered-based ones only when `delivered > 0`. -/
def computeRates (sent delivered opened clicked bounced complaints : Int) : Rates :=
  { DeliveryRate := if 0 < sent then (delivered : ℚ) / (sent : ℚ) * 100 else 0
    BounceRate := if 0 < sent then (bounced : ℚ) / (sent : ℚ) * 100 else 0
    ComplaintRate := if 0 < sent then (complaints : ℚ) / (sent : ℚ) * 100 else 0
    OpenRate := if 0 < delivered then (opened : ℚ) / (delivered : ℚ) * 100 else 0
    ClickRate := if 0 < delivered then (clicked : ℚ) / (delivered : ℚ) * 100 else 0 }

/-- C2: with sent = 0 the three sent-based rates are exactly 0, with
delivered = 0 the two delivered-based rates are exactly 0, and with positive
divisors each rate is exactly the corresponding unclamped percentage. -/
theorem rates_guarded_against_zero_division
    (sent delivered opened clicked bounced complaints : Int) :
    (sent = 0 →
      (computeRates sent delivered opened clicked bounced complaints).DeliveryRate = 0 ∧
      (computeRates sent delivered opened clicked bounced complaints).BounceRate = 0 ∧
      (computeRates sent delivered opened clicked bounced complaints).ComplaintRate = 0) ∧
    (delivered = 0 →
      (computeRates sent delivered opened clicked bounced complaints).OpenRate = 0 ∧
      (computeRates sent delivered opened clicked bounced complaints).ClickRate = 0) ∧
    (0 < sent →
      (computeRates sent delivered opened clicked bounced complaints).DeliveryRate =
        (delivered : ℚ) / (sent : ℚ) * 100 ∧
      (computeRates sent delivered opened clicked bounced complaints).BounceRate =
        (bounced : ℚ) / (sent : ℚ) * 100 ∧
      (computeRates sent delivered opened clicked bounced complaints).ComplaintRate =
        (complaints : ℚ) / (sent : ℚ) * 100) ∧
    (0 < delivered →
      (computeRates sent delivered opened clicked bounced complaints).OpenRate =
        (opened : ℚ) / (delivered : ℚ) * 100 ∧
      (computeRates sent delivered opened clicked bounced complaints).ClickRate =
        (clicked : ℚ) / (delivered : ℚ) * 100) := by
  refine ⟨?_, ?_, ?_, ?_⟩
  · intro h
    subst h
    simp [computeRates]
  · intro h
    subst h
    simp [computeRates]
  · intro h
    simp [computeRates, h]
  · intro h
    simp [computeRates, h]

/-- Witness for C2: at sent = 0 and delivered = 2 the sent-based rates are 0
while the open rate is the exact unclamped percentage 3/2 × 100 = 150. -/
theorem rates_guarded_witness :
    ((computeRates 0 2 3 1 4 5).DeliveryRate = 0 ∧
      (computeRates 0 2 3 1 4 5).BounceRate = 0 ∧
      (computeRates 0 2 3 1 4 5).ComplaintRate = 0) ∧
    ((computeRates 0 2 3 1 4 5).OpenRate = (3 : ℚ) / (2 : ℚ) * 100 ∧
      (computeRates 0 2 3 1 4 5).ClickRate = (1 : ℚ) / (2 : ℚ) * 100) :=
  ⟨(rates_guarded_against_zero_division 0 2 3 1 4 5).1 rfl,
   (rates_guarded_against_zero_division 0 2 3 1 4 5).2.2.2 (by decide)⟩

/-- One CloudWatch datapoint `(Timestamp, Sum)`; the source converts the float
sum with `int(*datapoint.Sum)`, so the summed count is an `Int` here. -/
structure Datapoint where
  Timestamp : Int
  Sum : Int
deriving Repr, DecidableEq

/-- The six datapoint series returned by the Metric Source for the SES metrics
Send, Delivery, Open, Click, Bounce and Complaint. -/
structure MetricDatapoints where
  sendDp : List Datapoint
  deliveryDp : List Datapoint
  openDp : List Datapoint
  clickDp : List Datapoint
  bounceDp : List Datapoint
  complaintDp : List Datapoint
deriving Repr, DecidableEq

/-- Go's `datapoint.Timestamp.Hour()` for a UTC epoch-second timestamp: the
hour of day, in `[0, 24)`, independent of the calendar day. -/
def hourOfDay (t : Int) : Int := t / 3600 % 24

/-- One value of the `hourlyData` map of `GetRealTimeReport`: the per-hour
partial sums of the six metrics (`map[string]int` with fixed keys). -/
structure HourData where
  sendC : Int
  deliveryC : Int
  openC : Int
  clickC : Int
  bounceC : Int
  complaintC : Int
deriving Repr, DecidableEq

/-- The zero-valued inner map produced by `make(map[string]int)`. -/
def emptyHourData : HourData := ⟨0, 0, 0, 0, 0, 0⟩

/-- The inner datapoint loop of `GetRealTimeReport` for one metric:
`hourlyData[datapoint.Timestamp.Hour()][metricName] += int(*datapoint.Sum)`. -/
def addMetricDatapoints (upd : Int → HourData → HourData) (dps : List Datapoint)
    (hd : List (Int × HourData)) : List (Int × HourData) :=
  dps.foldl
    (fun acc dp => alistBump emptyHourData acc (hourOfDay dp.Timestamp) (upd dp.Sum)) hd

/-- Per-metric accumulation into one bucket (`data["Send"] += sum`, etc.). -/
def updSend (s : Int) (d : HourData) : HourData := { d with sendC := d.sendC + s }

/-- Accumulation of the Delivery metric into one bucket. -/
def updDelivery (s : Int) (d : HourData) : HourData := { d with deliveryC := d.deliveryC + s }

/-- Accumulation of the Open metric into one bucket. -/
def updOpen (s : Int) (d : HourData) : HourData := { d with openC := d.openC + s }

/-- Accumulation of the Click metric into one bucket. -/
def updClick (s : Int) (d : HourData) : HourData := { d with clickC := d.clickC + s }

/-- Accumulation of the Bounce metric into one bucket. -/
def updBounce (s : Int) (d : HourData) : HourData := { d with bounceC := d.bounceC + s }

/-- Accumulation of the Complaint metric into one bucket. -/
def updComplaint (s : Int) (d : HourData) : HourData :=
  { d with complaintC := d.complaintC + s }

/-- The full `hourlyData` map of `GetRealTimeReport` after all six metric
loops (one fixed linearisation of Go's arbitrary map-iteration order; the
final contents do not depend on the order). -/
def hourlyDataOf (m : MetricDatapoints) : List (Int × HourData) :=
  addMetricDatapoints updComplaint m.complaintDp
    (addMetricDatapoints updBounce m.bounceDp
      (addMetricDatapoints updClick m.clickDp
        (addMetricDatapoints updOpen m.openDp
          (addMetricDatapoints updDelivery m.deliveryDp
            (addMetricDatapoints updSend m.sendDp [])))))

/-- `services.HourlyStats` (one row of the report's hourly table). -/
structure HourlyStats where
  Hour : Int
  Sent : Int
  Delivered : Int
  Failed : Int
  Opened : Int
  Clicked : Int
  OpenRate : ℚ
  ClickRate : ℚ
deriving Repr, DecidableEq

/-- The body of the `for hour, data := range hourlyData` loop of
`GetRealTimeReport`: one `HourlyStats` row from one bucket. -/
def mkHourlyStat (h : Int) (d : HourData) : HourlyStats :=
  { Hour := h
    Sent := d.sendC
    Delivered := d.deliveryC
    Failed := d.bounceC + d.complaintC
    Opened := d.openC
    Clicked := d.clickC
    OpenRate := if 0 < d.deliveryC then (d.openC : ℚ) / (d.deliveryC : ℚ) * 100 else 0
    ClickRate := if 0 < d.deliveryC then (d.clickC : ℚ) / (d.deliveryC : ℚ) * 100 else 0 }

/-- Comparator of the `sort.Slice` over `hourlyStats`:
`hourlyStats[i].Hour < hourlyStats[j].Hour` as a total preorder. -/
def hourAsc (a b : HourlyStats) : Prop := a.Hour ≤ b.Hour

instance : DecidableRel hourAsc := fun a b =>
  inferInstanceAs (Decidable (a.Hour ≤ b.Hour))

instance : IsTotal HourlyStats hourAsc :=
  ⟨fun a b => (Int.le_total a.Hour b.Hour).imp id id⟩

instance : IsTrans HourlyStats hourAsc :=
  ⟨fun _ _ _ hab hbc => Int.le_trans hab hbc⟩

/-- The sorted hourly table of `GetRealTimeReport`. -/
def hourlyStatsOf (m : MetricDatapoints) : List HourlyStats :=
  List.insertionSort hourAsc ((hourlyDataOf m).map (fun p => mkHourlyStat p.1 p.2))

/-- The grand total of one metric (`sum += int(*datapoint.Sum)`). -/
def datapointTotal (dps : List Datapoint) : Int := (dps.map Datapoint.Sum).sum

/-- `services.DeliveryReport`. -/
structure DeliveryReport where
  Period : String
  TotalSent : Int
  TotalDelivered : Int
  TotalFailed : Int
  TotalOpened : Int
  TotalClicked : Int
  DeliveryRate : ℚ
  OpenRate : ℚ
  ClickRate : ℚ
  DetailedStatus : List DeliveryStatus
  HourlyStats : List HourlyStats
deriving Repr, DecidableEq

/-- `DeliveryService.GetRealTimeReport`, given the datapoint series the
CloudWatch collaborator returns for the window. -/
def GetRealTimeReport (hours : Int) (m : MetricDatapoints) (cache : Cache) :
    DeliveryReport :=
  let hours := if hours ≤ 0 then 24 else hours
  let sent := datapointTotal m.sendDp
  let delivered := datapointTotal m.deliveryDp
  let failed := datapointTotal m.bounceDp + datapointTotal m.complaintDp
  let opened := datapointTotal m.openDp
  let clicked := datapointTotal m.clickDp
  let deliveryRate : ℚ := if 0 < sent then (delivered : ℚ) / (sent : ℚ) * 100 else 0
  let openRate : ℚ := if 0 < delivered then (opened : ℚ) / (delivered : ℚ) * 100 else 0
  let clickRate : ℚ := if 0 < delivered then (clicked : ℚ) / (delivered : ℚ) * 100 else 0
  let statuses := GetAllDeliveryStatus cache
  let statuses := if 100 < statuses.length then statuses.take 100 else statuses
  { Period := "Últimas " ++ toString hours ++ " horas"
    TotalSent := sent
    TotalDelivered := delivered
    TotalFailed := failed
    TotalOpened := opened
    TotalClicked := clicked
    DeliveryRate := deliveryRate
    OpenRate := openRate
    ClickRate := clickRate
    DetailedStatus := statuses
    HourlyStats := hourlyStatsOf m }

/-- The value of one metric in one hour bucket of an `hourlyData` map, `0` when
the bucket is absent. -/
def bucketVal (proj : HourData → Int) (hd : List (Int × HourData)) (h : Int) : Int :=
  ((alistLookup hd h).map proj).getD 0

/-- The sum of one metric's datapoints whose timestamp falls on a given
hour-of-day, over all calendar days. -/
def metricSumAt (h : Int) (dps : List Datapoint) : Int :=
  ((dps.filter (fun dp => hourOfDay dp.Timestamp == h)).map Datapoint.Sum).sum

theorem bucketVal_bump (proj : HourData → Int) (hproj0 : proj emptyHourData = 0)
    (δ : Int) (f : HourData → HourData) (hf : ∀ d, proj (f d) = proj d + δ)
    (hd : List (Int × HourData)) (k h : Int) :
    bucketVal proj (alistBump emptyHourData hd k f) h =
      bucketVal proj hd h + (if k = h then δ else 0) := by
  by_cases hkh : k = h
  · subst hkh
    rw [bucketVal, alistLookup_bump_self]
    cases hl : alistLookup hd k with
    | none => simp [bucketVal, hl, hf, hproj0]
    | some d => simp [bucketVal, hl, hf]
  · rw [bucketVal, alistLookup_bump_ne _ _ _ _ _ (Ne.symm hkh), if_neg hkh]
    simp [bucketVal]

theorem bucketVal_addMetricDatapoints (proj : HourData → Int)
    (hproj0 : proj emptyHourData = 0)
    (upd : Int → HourData → HourData) (hupd : ∀ s d, proj (upd s d) = proj d + s)
    (dps : List Datapoint) (hd : List (Int × HourData)) (h : Int) :
    bucketVal proj (addMetricDatapoints upd dps hd) h =
      bucketVal proj hd h + metricSumAt h dps := by
  induction dps generalizing hd with
  | nil => simp [addMetricDatapoints, metricSumAt]
  | cons dp dps ih =>
    rw [addMetricDatapoints, List.foldl_cons]
    rw [show (List.foldl
        (fun acc dp => alistBump emptyHourData acc (hourOfDay dp.Timestamp) (upd dp.Sum))
        (alistBump emptyHourData hd (hourOfDay dp.Timestamp) (upd dp.Sum)) dps) =
      addMetricDatapoints upd dps
        (alistBump emptyHourData hd (hourOfDay dp.Timestamp) (upd dp.Sum)) from rfl]
    rw [ih, bucketVal_bump proj hproj0 dp.Sum (upd dp.Sum) (hupd dp.Sum)]
    have hsum : metricSumAt h (dp :: dps) =
        (if hourOfDay dp.Timestamp = h then dp.Sum else 0) + metricSumAt h dps := by
      by_cases hdp : hourOfDay dp.Timestamp = h
      · simp [metricSumAt, List.filter_cons, hdp]
      · simp [metricSumAt, List.filter_cons, hdp]
    rw [hsum]
    ring

theorem bucketVal_addMetricDatapoints_frame (proj : HourData → Int)
    (hproj0 : proj emptyHourData = 0)
    (upd : Int → HourData → HourData) (hupd : ∀ s d, proj (upd s d) = proj d)
    (dps : List Datapoint) (hd : List (Int × HourData)) (h : Int) :
    bucketVal proj (addMetricDatapoints upd dps hd) h = bucketVal proj hd h := by
  induction dps generalizing hd with
  | nil => simp [addMetricDatapoints]
  | cons dp dps ih =>
    rw [addMetricDatapoints, List.foldl_cons]
    rw [show (List.foldl
        (fun acc dp => alistBump emptyHourData acc (hourOfDay dp.Timestamp) (upd dp.Sum))
        (alistBump emptyHourData hd (hourOfDay dp.Timestamp) (upd dp.Sum)) dps) =
      addMetricDatapoints upd dps
        (alistBump emptyHourData hd (hourOfDay dp.Timestamp) (upd dp.Sum)) from rfl]
    rw [ih, bucketVal_bump proj hproj0 0 (upd dp.Sum)
      (fun d => by rw [hupd, Int.add_zero])]
    simp

theorem hourOfDay_nonneg (t : Int) : 0 ≤ hourOfDay t :=
  Int.emod_nonneg _ (by norm_num)

theorem hourOfDay_lt (t : Int) : hourOfDay t < 24 :=
  Int.emod_lt_of_pos _ (by norm_num)

theorem keys_addMetricDatapoints (upd : Int → HourData → HourData)
    (dps : List Datapoint) (hd : List (Int × HourData)) :
    ∀ k ∈ (addMetricDatapoints upd dps hd).map Prod.fst,
      k ∈ hd.map Prod.fst ∨ ∃ dp ∈ dps, k = hourOfDay dp.Timestamp := by
  induction dps generalizing hd with
  | nil =>
    intro k hk
    exact Or.inl hk
  | cons dp dps ih =>
    intro k hk
    rw [addMetricDatapoints, List.foldl_cons] at hk
    have hk' := ih (alistBump emptyHourData hd (hourOfDay dp.Timestamp) (upd dp.Sum)) k hk
    rcases hk' with hmem | ⟨dp', hdp', hval⟩
    · rw [alistKeys_bump] at hmem
      by_cases hin : hourOfDay dp.Timestamp ∈ hd.map Prod.fst
      · rw [if_pos hin] at hmem
        exact Or.inl hmem
      · rw [if_neg hin] at hmem
        rcases List.mem_append.mp hmem with hmem' | hmem'
        · exact Or.inl hmem'
        · exact Or.inr ⟨dp, List.mem_cons_self .., List.mem_singleton.mp hmem'⟩
    · exact Or.inr ⟨dp', List.mem_cons_of_mem _ hdp', hval⟩

theorem nodup_keys_addMetricDatapoints (upd : Int → HourData → HourData)
    (dps : List Datapoint) (hd : List (Int × HourData))
    (hn : (hd.map Prod.fst).Nodup) :
    ((addMetricDatapoints upd dps hd).map Prod.fst).Nodup := by
  induction dps generalizing hd with
  | nil => exact hn
  | cons dp dps ih =>
    rw [addMetricDatapoints, List.foldl_cons]
    refine ih _ ?_
    rw [alistKeys_bump]
    by_cases hin : hourOfDay dp.Timestamp ∈ hd.map Prod.fst
    · rw [if_pos hin]
      exact hn
    · rw [if_neg hin]
      rw [List.nodup_append]
      exact ⟨hn, List.nodup_singleton _,
        fun a ha hb => hin ((List.mem_singleton.mp hb) ▸ ha)⟩

theorem keys_hourlyDataOf (m : MetricDatapoints) :
    ∀ k ∈ (hourlyDataOf m).map Prod.fst, 0 ≤ k ∧ k < 24 := by
  have hb : ∀ t : Int, 0 ≤ hourOfDay t ∧ hourOfDay t < 24 :=
    fun t => ⟨hourOfDay_nonneg t, hourOfDay_lt t⟩
  intro k hk
  unfold hourlyDataOf at hk
  rcases keys_addMetricDatapoints _ _ _ k hk with hk | ⟨dp, _, rfl⟩
  · rcases keys_addMetricDatapoints _ _ _ k hk with hk | ⟨dp, _, rfl⟩
    · rcases keys_addMetricDatapoints _ _ _ k hk with hk | ⟨dp, _, rfl⟩
      · rcases keys_addMetricDatapoints _ _ _ k hk with hk | ⟨dp, _, rfl⟩
        · rcases keys_addMetricDatapoints _ _ _ k hk with hk | ⟨dp, _, rfl⟩
          · rcases keys_addMetricDatapoints _ _ _ k hk with hk | ⟨dp, _, rfl⟩
            · simp at hk
            · exact hb _
          · exact hb _
        · exact hb _
      · exact hb _
    · exact hb _
  · exact hb _

theorem nodup_keys_hourlyDataOf (m : MetricDatapoints) :
    ((hourlyDataOf m).map Prod.fst).Nodup := by
  unfold hourlyDataOf
  exact nodup_keys_addMetricDatapoints _ _ _
    (nodup_keys_addMetricDatapoints _ _ _
      (nodup_keys_addMetricDatapoints _ _ _
        (nodup_keys_addMetricDatapoints _ _ _
          (nodup_keys_addMetricDatapoints _ _ _
            (nodup_keys_addMetricDatapoints _ _ _ (by simp))))))

theorem length_le_24_of_nodup_hours (l : List Int) (hn : l.Nodup)
    (hb : ∀ k ∈ l, 0 ≤ k ∧ k < 24) : l.length ≤ 24 := by
  have hsub : l.toFinset ⊆ Finset.Icc (0 : Int) 23 := by
    intro k hk
    rw [List.mem_toFinset] at hk
    have := hb k hk
    rw [Finset.mem_Icc]
    omega
  have hcard := Finset.card_le_card hsub
  rw [List.toFinset_card_of_nodup hn] at hcard
  simpa [Int.card_Icc] using hcard

/-- C6: in the real-time report, every hourly bucket key is an hour-of-day in
`[0, 24)` and there are at most 24 buckets regardless of the window length;
the value of a metric in bucket `h` is the sum of ALL of that metric's
datapoints whose timestamp has hour-of-day `h`, across every calendar day. -/
theorem hourly_bucket_key_is_hour_of_day (m : MetricDatapoints) :
    (∀ s ∈ hourlyStatsOf m, 0 ≤ s.Hour ∧ s.Hour < 24) ∧
    (hourlyStatsOf m).length ≤ 24 ∧
    (∀ h : Int,
      bucketVal HourData.sendC (hourlyDataOf m) h = metricSumAt h m.sendDp ∧
      bucketVal HourData.deliveryC (hourlyDataOf m) h = metricSumAt h m.deliveryDp ∧
      bucketVal HourData.openC (hourlyDataOf m) h = metricSumAt h m.openDp ∧
      bucketVal HourData.clickC (hourlyDataOf m) h = metricSumAt h m.clickDp ∧
      bucketVal HourData.bounceC (hourlyDataOf m) h = metricSumAt h m.bounceDp ∧
      bucketVal HourData.complaintC (hourlyDataOf m) h = metricSumAt h m.complaintDp) := by
  refine ⟨?_, ?_, ?_⟩
  · intro s hs
    rw [hourlyStatsOf, List.mem_insertionSort] at hs
    rcases List.mem_map.mp hs with ⟨p, hp, rfl⟩
    exact keys_hourlyDataOf m p.1 (List.mem_map_of_mem _ hp)
  · have h1 : (hourlyStatsOf m).length = (hourlyDataOf m).length := by
      rw [hourlyStatsOf,
        (List.perm_insertionSort hourAsc ((hourlyDataOf m).map
          (fun p => mkHourlyStat p.1 p.2))).length_eq, List.length_map]
    rw [h1, ← List.length_map (hourlyDataOf m) Prod.fst]
    exact length_le_24_of_nodup_hours _ (nodup_keys_hourlyDataOf m) (keys_hourlyDataOf m)
  · intro h
    unfold hourlyDataOf
    refine ⟨?_, ?_, ?_, ?_, ?_, ?_⟩
    · rw [bucketVal_addMetricDatapoints_frame HourData.sendC rfl updComplaint (fun s d => rfl),
          bucketVal_addMetricDatapoints_frame HourData.sendC rfl updBounce (fun s d => rfl),
          bucketVal_addMetricDatapoints_frame HourData.sendC rfl updClick (fun s d => rfl),
          bucketVal_addMetricDatapoints_frame HourData.sendC rfl updOpen (fun s d => rfl),
          bucketVal_addMetricDatapoints_frame HourData.sendC rfl updDelivery (fun s d => rfl),
          bucketVal_addMetricDatapoints HourData.sendC rfl updSend (fun s d => rfl)]
      simp [bucketVal, alistLookup]
    · rw [bucketVal_addMetricDatapoints_frame HourData.deliveryC rfl updComplaint (fun s d => rfl),
          bucketVal_addMetricDatapoints_frame HourData.deliveryC rfl updBounce (fun s d => rfl),
          bucketVal_addMetricDatapoints_frame HourData.deliveryC rfl updClick (fun s d => rfl),
          bucketVal_addMetricDatapoints_frame HourData.deliveryC rfl updOpen (fun s d => rfl),
          bucketVal_addMetricDatapoints HourData.deliveryC rfl updDelivery (fun s d => rfl),
          bucketVal_addMetricDatapoints_frame HourData.deliveryC rfl updSend (fun s d => rfl)]
      simp [bucketVal, alistLookup]
    · rw [bucketVal_addMetricDatapoints_frame HourData.openC rfl updComplaint (fun s d => rfl),
          bucketVal_addMetricDatapoints_frame HourData.openC rfl updBounce (fun s d => rfl),
          bucketVal_addMetricDatapoints_frame HourData.openC rfl updClick (fun s d => rfl),
          bucketVal_addMetricDatapoints HourData.openC rfl updOpen (fun s d => rfl),
          bucketVal_addMetricDatapoints_frame HourData.openC rfl updDelivery (fun s d => rfl),
          bucketVal_addMetricDatapoints_frame HourData.openC rfl updSend (fun s d => rfl)]
      simp [bucketVal, alistLookup]
    · rw [bucketVal_addMetricDatapoints_frame HourData.clickC rfl updComplaint (fun s d => rfl),
          bucketVal_addMetricDatapoints_frame HourData.clickC rfl updBounce (fun s d => rfl),
          bucketVal_addMetricDatapoints HourData.clickC rfl updClick (fun s d => rfl),
          bucketVal_addMetricDatapoints_frame HourData.clickC rfl updOpen (fun s d => rfl),
          bucketVal_addMetricDatapoints_frame HourData.clickC rfl updDelivery (fun s d => rfl),
          bucketVal_addMetricDatapoints_frame HourData.clickC rfl updSend (fun s d => rfl)]
      simp [bucketVal, alistLookup]
    · rw [bucketVal_addMetricDatapoints_frame HourData.bounceC rfl updComplaint (fun s d => rfl),
          bucketVal_addMetricDatapoints HourData.bounceC rfl updBounce (fun s d => rfl),
          bucketVal_addMetricDatapoints_frame HourData.bounceC rfl updClick (fun s d => rfl),
          bucketVal_addMetricDatapoints_frame HourData.bounceC rfl updOpen (fun s d => rfl),
          bucketVal_addMetricDatapoints_frame HourData.bounceC rfl updDelivery (fun s d => rfl),
          bucketVal_addMetricDatapoints_frame HourData.bounceC rfl updSend (fun s d => rfl)]
      simp [bucketVal, alistLookup]
    · rw [bucketVal_addMetricDatapoints HourData.complaintC rfl updComplaint (fun s d => rfl),
          bucketVal_addMetricDatapoints_frame HourData.complaintC rfl updBounce (fun s d => rfl),
          bucketVal_addMetricDatapoints_frame HourData.complaintC rfl updClick (fun s d => rfl),
          bucketVal_addMetricDatapoints_frame HourData.complaintC rfl updOpen (fun s d => rfl),
          bucketVal_addMetricDatapoints_frame HourData.complaintC rfl updDelivery (fun s d => rfl),
          bucketVal_addMetricDatapoints_frame HourData.complaintC rfl updSend (fun s d => rfl)]
      simp [bucketVal, alistLookup]

/-- Witness for C6: two Send datapoints one calendar day apart but with the
same hour-of-day (hour 1) collapse into the single bucket 1, whose value is
their sum 5 + 7 = 12. -/
theorem hourly_bucket_witness :
    bucketVal HourData.sendC
        (hourlyDataOf ⟨[⟨3600, 5⟩, ⟨90000, 7⟩], [], [], [], [], []⟩) 1 = 12 ∧
    (hourlyStatsOf ⟨[⟨3600, 5⟩, ⟨90000, 7⟩], [], [], [], [], []⟩).length ≤ 24 :=
  ⟨(((hourly_bucket_key_is_hour_of_day
      ⟨[⟨3600, 5⟩, ⟨90000, 7⟩], [], [], [], [], []⟩).2.2 1).1).trans (by decide),
   (hourly_bucket_key_is_hour_of_day
      ⟨[⟨3600, 5⟩, ⟨90000, 7⟩], [], [], [], [], []⟩).2.1⟩

/-- C8: when the cache holds more than 100 records, the report's
`DetailedStatus` is exactly the first 100 entries of `GetAllDeliveryStatus`
(the 100 most recent by send timestamp, since that list is sorted descending),
and `HourlyStats` is sorted ascending by hour key. -/
theorem report_truncates_detail_and_sorts_hours
    (hours : Int) (m : MetricDatapoints) (cache : Cache)
    (hc : 100 < cache.length) :
    (GetRealTimeReport hours m cache).DetailedStatus =
        (GetAllDeliveryStatus cache).take 100 ∧
    (GetRealTimeReport hours m cache).DetailedStatus.length = 100 ∧
    List.Sorted hourAsc (GetRealTimeReport hours m cache).HourlyStats := by
  have hlen : (GetAllDeliveryStatus cache).length = cache.length := by
    rw [GetAllDeliveryStatus,
      (List.perm_insertionSort sentAtDesc (cache.map Prod.snd)).length_eq,
      List.length_map]
  have h100 : 100 < (GetAllDeliveryStatus cache).length := by rw [hlen]; exact hc
  refine ⟨?_, ?_, ?_⟩
  · simp [GetRealTimeReport, h100]
  · simp [GetRealTimeReport, h100, List.length_take]
    omega
  · simp only [GetRealTimeReport, hourlyStatsOf]
    exact List.sorted_insertionSort hourAsc _

/-- Witness for C8: a concrete cache of 101 records is truncated to exactly
100 entries and the hourly table is sorted. -/
theorem report_truncates_witness :
    (GetRealTimeReport 12 ⟨[], [], [], [], [], []⟩
        ((List.range 101).map (fun i =>
          (toString i, trackedRecord "a@x.com" (toString i) "s" (Int.ofNat i))))).DetailedStatus =
      (GetAllDeliveryStatus
        ((List.range 101).map (fun i =>
          (toString i, trackedRecord "a@x.com" (toString i) "s" (Int.ofNat i))))).take 100 ∧
    (GetRealTimeReport 12 ⟨[], [], [], [], [], []⟩
        ((List.range 101).map (fun i =>
          (toString i, trackedRecord "a@x.com" (toString i) "s" (Int.ofNat i))))).DetailedStatus.length = 100 ∧
    List.Sorted hourAsc (GetRealTimeReport 12 ⟨[], [], [], [], [], []⟩
        ((List.range 101).map (fun i =>
          (toString i, trackedRecord "a@x.com" (toString i) "s" (Int.ofNat i))))).HourlyStats :=
  report_truncates_detail_and_sorts_hours 12 ⟨[], [], [], [], [], []⟩
    ((List.range 101).map (fun i =>
      (toString i, trackedRecord "a@x.com" (toString i) "s" (Int.ofNat i))))
    (by rw [List.length_map, List.length_range]; norm_num)

/-- `services.Attachment` (filename + base64-encoded content). -/
structure Attachment where
  Filename : String
  Content : String
deriving Repr, DecidableEq

/-- `services.EmailRequest`. `TemplateData` (`map[string]interface{}`) is
modelled as a key/value list; only its emptiness and its serialisation (via
the marshal collaborator) are observable in the source. -/
structure EmailRequest where
  From : String
  To : List String
  Cc : List String
  Bcc : List String
  Subject : String
  HtmlBody : String
  TextBody : String
  Attachments : List Attachment
  TemplateId : String
  TemplateData : List (String × String)
deriving Repr, DecidableEq

/-- `services.EmailResponse`. -/
structure EmailResponse where
  MessageID : String
  From : String
  To : List String
  Subject : String
  SentAt : Int
  StatusCode : Int
  Status : String
deriving Repr, DecidableEq

/-- The distinct error exits of `SESService.SendEmail` and
`sendEmailWithTemplate`, one constructor per `fmt.Errorf` site. -/
inductive SendError where
  | SenderLookupFailed (cause : String)
  | SenderNotFound
  | SenderUnverified (status : String)
  | TemplateNotFound (cause : String)
  | AttachmentBuildFailed (cause : String)
  | BodyValidation
  | Transport (cause : String)
deriving Repr, DecidableEq

/-- The external collaborators `SendEmail` calls, as explicit functions:
`GetSender` (SES identity attributes: transport error, absent, or a
verification status), `GetTemplate` (existence check), the gomail raw-MIME
builder, the three SES send entry points, and `json.Marshal`. -/
structure SendEnv where
  getSender : String → Except String (Option String)
  getTemplate : String → Except String Unit
  buildRaw : EmailRequest → Except String (List Nat)
  sendRawEmail : List Nat → Except String String
  sendSimpleEmail : EmailRequest → Except String String
  sendTemplatedEmail : EmailRequest → String → Except String String
  marshal : List (String × String) → String

/-- `SESService.sendEmailWithTemplate`: check the template exists, serialise
`TemplateData` (literal `"\x7b\x7d"` when empty), send, and answer with the
`"[Template: id]"` subject. -/
def sendEmailWithTemplate (env : SendEnv) (req : EmailRequest) (now : Int) :
    Except SendError EmailResponse :=
  match env.getTemplate req.TemplateId with
  | .error e => .error (.TemplateNotFound e)
  | .ok _ =>
    let templateData :=
      if req.TemplateData = [] then "\x7b\x7d" else env.marshal req.TemplateData
    match env.sendTemplatedEmail req templateData with
    | .error e => .error (.Transport e)
    | .ok mid =>
      .ok { MessageID := mid, From := req.From, To := req.To,
            Subject := "[Template: " ++ req.TemplateId ++ "]",
            SentAt := now, StatusCode := 200, Status := "success" }

/-- `SESService.SendEmail`: sender existence/verification checks, template
routing, body validation, then the raw-MIME path (attachments present) or the
simple structured path. -/
def SendEmail (env : SendEnv) (req : EmailRequest) (now : Int) :
    Except SendError EmailResponse :=
  match env.getSender req.From with
  | .error e => .error (.SenderLookupFailed e)
  | .ok none => .error .SenderNotFound
  | .ok (some st) =>
    if st ≠ "Success" then .error (.SenderUnverified st)
    else if req.TemplateId ≠ "" then sendEmailWithTemplate env req now
    else if req.HtmlBody = "" ∧ req.TextBody = "" then .error .BodyValidation
    else if req.Attachments ≠ [] then
      match env.buildRaw req with
      | .error e => .error (.AttachmentBuildFailed e)
      | .ok raw =>
        match env.sendRawEmail raw with
        | .error e => .error (.Transport e)
        | .ok mid =>
          .ok { MessageID := mid, From := req.From, To := req.To,
                Subject := req.Subject, SentAt := now, StatusCode := 200,
                Status := "success" }
    else
      match env.sendSimpleEmail req with
      | .error e => .error (.Transport e)
      | .ok mid =>
        .ok { MessageID := mid, From := req.From, To := req.To,
              Subject := req.Subject, SentAt := now, StatusCode := 200,
              Status := "success" }

/-- C1: `SendEmail` validates fail-fast with the first failure winning:
an absent sender fails with the sender-not-found error; an unverified sender
fails with the unverified-sender error regardless of bodies or template (in
particular even when both bodies are empty); for a verified sender a set
`TemplateId` routes to the templated path with no body check; only with no
template does the both-bodies-empty check fire, as a validation error. -/
theorem sendEmail_validation_order (env : SendEnv) (req : EmailRequest) (now : Int) :
    (env.getSender req.From = .ok none →
      SendEmail env req now = .error .SenderNotFound) ∧
    (∀ st, env.getSender req.From = .ok (some st) → st ≠ "Success" →
      SendEmail env req now = .error (.SenderUnverified st)) ∧
    (env.getSender req.From = .ok (some "Success") → req.TemplateId ≠ "" →
      SendEmail env req now = sendEmailWithTemplate env req now) ∧
    (env.getSender req.From = .ok (some "Success") → req.TemplateId = "" →
      req.HtmlBody = "" → req.TextBody = "" →
      SendEmail env req now = .error .BodyValidation) := by
  refine ⟨?_, ?_, ?_, ?_⟩
  · intro h
    simp [SendEmail, h]
  · intro st h hst
    simp [SendEmail, h, hst]
  · intro h ht
    simp [SendEmail, h, ht]
  · intro h ht hh hx
    simp [SendEmail, h, ht, hh, hx]

/-- Witness for C1: a concrete unverified sender with both bodies empty fails
with the unverified-sender error, not the validation error. -/
theorem sendEmail_validation_witness :
    SendEmail
      { getSender := fun _ => .ok (some "Pending")
        getTemplate := fun _ => .ok ()
        buildRaw := fun _ => .ok []
        sendRawEmail := fun _ => .ok "mid"
        sendSimpleEmail := fun _ => .ok "mid"
        sendTemplatedEmail := fun _ _ => .ok "mid"
        marshal := fun _ => "" }
      { From := "a@x.com", To := ["b@x.com"], Cc := [], Bcc := [],
        Subject := "s", HtmlBody := "", TextBody := "", Attachments := [],
        TemplateId := "", TemplateData := [] } 99 =
      .error (.SenderUnverified "Pending") :=
  (sendEmail_validation_order
    { getSender := fun _ => .ok (some "Pending")
      getTemplate := fun _ => .ok ()
      buildRaw := fun _ => .ok []
      sendRawEmail := fun _ => .ok "mid"
      sendSimpleEmail := fun _ => .ok "mid"
      sendTemplatedEmail := fun _ _ => .ok "mid"
      marshal := fun _ => "" }
    { From := "a@x.com", To := ["b@x.com"], Cc := [], Bcc := [],
      Subject := "s", HtmlBody := "", TextBody := "", Attachments := [],
      TemplateId := "", TemplateData := [] } 99).2.1
    "Pending" rfl (by decide)

/-- Gregorian leap-year rule used by Go's `time` package. -/
def isLeapYear (y : Nat) : Bool :=
  y % 4 = 0 && (y % 100 ≠ 0 || y % 400 = 0)

/-- Days in a month, as Go's `time.Parse` uses to reject out-of-range days. -/
def daysInMonth (y m : Nat) : Nat :=
  if m = 2 then (if isLeapYear y then 29 else 28)
  else if m = 4 ∨ m = 6 ∨ m = 9 ∨ m = 11 then 30
  else 31

/-- Days from 1970-01-01 to the civil date y-m-d (proleptic Gregorian, UTC),
so `daysFromCivil y m d * 86400` is the epoch second of that midnight —
the instant `time.Parse("2006-01-02", s)` produces. -/
def daysFromCivil (y m d : Nat) : Int :=
  let y' : Int := if m ≤ 2 then (y : Int) - 1 else (y : Int)
  let era : Int := (if 0 ≤ y' then y' else y' - 399) / 400
  let yoe : Int := y' - era * 400
  let mp : Int := ((m : Int) + 9) % 12
  let doy : Int := (153 * mp + 2) / 5 + (d : Int) - 1
  let doe : Int := yoe * 365 + yoe / 4 - yoe / 100 + doy
  era * 146097 + doe - 719468

/-- Numeric value of a decimal digit character. -/
def digitVal (c : Char) : Nat := c.toNat - '0'.toNat

/-- `time.Parse("2006-01-02", s)`: exactly `YYYY-MM-DD` with zero-padded
fields, month in 1..12 and day in range for the month, yielding midnight UTC
as an epoch second; `none` on any malformed or out-of-range input. -/
def parseDate (s : String) : Option Int :=
  match s.data with
  | [y1, y2, y3, y4, s1, m1, m2, s2, d1, d2] =>
    if y1.isDigit ∧ y2.isDigit ∧ y3.isDigit ∧ y4.isDigit ∧ s1 = '-' ∧
       m1.isDigit ∧ m2.isDigit ∧ s2 = '-' ∧ d1.isDigit ∧ d2.isDigit then
      let y := ((digitVal y1 * 10 + digitVal y2) * 10 + digitVal y3) * 10 + digitVal y4
      let m := digitVal m1 * 10 + digitVal m2
      let d := digitVal d1 * 10 + digitVal d2
      if 1 ≤ m ∧ m ≤ 12 ∧ 1 ≤ d ∧ d ≤ daysInMonth y m then
        some (daysFromCivil y m d * 86400)
      else none
    else none
  | _ => none

/-- `services.parseDateRange`: defaulting (30 days = 2592000 s before now for
a missing start — `AddDate(0, 0, -30)` in UTC; now for a missing end), the
end-of-day extension `Add(24*time.Hour - time.Second)` = +86399 s for an
explicit end, and the `endDate.Before(startDate)` validation. -/
def parseDateRange (now : Int) (startDateStr endDateStr : String) :
    Except String (Int × Int) :=
  match (if startDateStr = "" then some (now - 2592000) else parseDate startDateStr) with
  | none => .error "formato de data inicial inválido (use YYYY-MM-DD)"
  | some startDate =>
    match (if endDateStr = "" then some now
           else (parseDate endDateStr).map (· + 86399)) with
    | none => .error "formato de data final inválido (use YYYY-MM-DD)"
    | some endDate =>
      if endDate < startDate then
        .error "data final não pode ser anterior à data inicial"
      else .ok (startDate, endDate)

/-- The start instant `parseDateRange` resolves: 30 days before now when no
start string is given, otherwise the parsed calendar date. -/
def resultingStart (now : Int) (s : String) : Option Int :=
  if s = "" then some (now - 2592000) else parseDate s

/-- The end instant `parseDateRange` resolves: now when no end string is
given, otherwise the parsed calendar date extended to the last second of that
day. -/
def resultingEnd (now : Int) (e : String) : Option Int :=
  if e = "" then some now else (parseDate e).map (· + 86399)

theorem parseDateRange_eq (now : Int) (s e : String) :
    parseDateRange now s e =
      match resultingStart now s with
      | none => .error "formato de data inicial inválido (use YYYY-MM-DD)"
      | some startDate =>
        match resultingEnd now e with
        | none => .error "formato de data final inválido (use YYYY-MM-DD)"
        | some endDate =>
          if endDate < startDate then
            .error "data final não pode ser anterior à data inicial"
          else .ok (startDate, endDate) := rfl

/-- C7: with neither date given the window is exactly [now - 30 days, now];
whenever `parseDateRange` succeeds the bounds are the resolved start (default
30 days before now, else the parsed date) and resolved end (default now, else
the parsed date extended to the last second of its day); and it succeeds
exactly when both resolve (i.e. every given string parses) and start ≤ end. -/
theorem dateRange_defaults_and_failure_condition (now : Int) (s e : String) :
    (parseDateRange now "" "" = .ok (now - 2592000, now)) ∧
    (∀ a b, parseDateRange now s e = .ok (a, b) →
      resultingStart now s = some a ∧ resultingEnd now e = some b) ∧
    ((∃ r, parseDateRange now s e = .ok r) ↔
      (∃ a b, resultingStart now s = some a ∧ resultingEnd now e = some b ∧ a ≤ b)) := by
  refine ⟨?_, ?_, ?_⟩
  · have h1 : ¬ (now < now - 2592000) := by omega
    simp [parseDateRange, h1]
  · intro a b hab
    rw [parseDateRange_eq] at hab
    cases hs : resultingStart now s with
    | none => rw [hs] at hab; exact absurd hab (by simp)
    | some a' =>
      rw [hs] at hab
      dsimp only at hab
      cases he : resultingEnd now e with
      | none => rw [he] at hab; exact absurd hab (by simp)
      | some b' =>
        rw [he] at hab
        dsimp only at hab
        by_cases hlt : b' < a'
        · rw [if_pos hlt] at hab; exact absurd hab (by simp)
        · rw [if_neg hlt] at hab
          obtain ⟨rfl, rfl⟩ : a' = a ∧ b' = b := by
            have := Except.ok.inj hab
            exact ⟨congrArg Prod.fst this, congrArg Prod.snd this⟩
          exact ⟨rfl, rfl⟩
  · constructor
    · rintro ⟨⟨a, b⟩, hab⟩
      rw [parseDateRange_eq] at hab
      cases hs : resultingStart now s with
      | none => rw [hs] at hab; exact absurd hab (by simp)
      | some a' =>
        rw [hs] at hab
        dsimp only at hab
        cases he : resultingEnd now e with
        | none => rw [he] at hab; exact absurd hab (by simp)
        | some b' =>
          rw [he] at hab
          dsimp only at hab
          by_cases hlt : b' < a'
          · rw [if_pos hlt] at hab; exact absurd hab (by simp)
          · exact ⟨a', b', rfl, rfl, le_of_not_lt hlt⟩
    · rintro ⟨a, b, hs, he, hab⟩
      refine ⟨(a, b), ?_⟩
      rw [parseDateRange_eq, hs, he]
      dsimp only
      rw [if_neg (not_lt.mpr hab)]

/-- Witness for C7: with no dates the window is [now - 2592000, now]; an
explicit start "2001-09-09" (epoch 999993600) with defaulted end succeeds;
an unparsable start "2023-02-30" (no such day) has no resolved start. -/
theorem dateRange_defaults_witness :
    parseDateRange 1000000000 "" "" = .ok (1000000000 - 2592000, 1000000000) ∧
    (∃ r, parseDateRange 1000000000 "2001-09-09" "" = .ok r) ∧
    resultingStart 1000000000 "2023-02-30" = none :=
  ⟨(dateRange_defaults_and_failure_condition 1000000000 "" "").1,
   (dateRange_defaults_and_failure_condition 1000000000 "2001-09-09" "").2.2.mpr
     ⟨999993600, 1000000000, by decide, by decide, by decide⟩,
   by decide⟩
